import Mathlib

/-!
# Verification of the availability-scraping subsystem of `library-ai-chatbot`

Shallow embedding of `src/scraper/availability_checker.py` (class
`AvailabilityChecker`) and of the REST endpoint
`GET /api/books/{book_id}/availability` from `src/api/main.py`.

HTML documents are modelled as already-parsed DOM trees (the `Node` type);
the network is modelled as a `World` mapping requests plus the current
cookie jar to either an exception message or a response and an updated jar,
mirroring `requests.Session` semantics.  The Python class defines
`check_availability` twice; the second definition (line 265 of the source)
shadows the first at class-creation time, so the embedded
`check_availability` is the second (AJAX-based) one.
-/

namespace LibChatbot

/-! ## String helpers (Python semantics, kernel-reducible) -/

/-- Lower-casing as Python `str.lower` acts on the alphabet used by the
scraper: ASCII letters plus the Croatian letters appearing in the
comparisons (`Š`, `Đ`, `Č`, `Ć`, `Ž`). -/
def lowerChar (c : Char) : Char :=
  if 'A' ≤ c && c ≤ 'Z' then Char.ofNat (c.toNat + 32)
  else if c = 'Š' then 'š'
  else if c = 'Đ' then 'đ'
  else if c = 'Č' then 'č'
  else if c = 'Ć' then 'ć'
  else if c = 'Ž' then 'ž'
  else c

/-- Python `str.lower` on the characters relevant to the scraper. -/
def pyLower (s : String) : String :=
  String.mk (s.data.map lowerChar)

/-- Python's `\s` / `str.strip` whitespace class (ASCII part). -/
def pyIsSpace (c : Char) : Bool :=
  c = ' ' || c = '\t' || c = '\n' || c = '\x0d' || c = '\x0c' || c = '\x0b'

/-- Python `str.strip()` on a character list. -/
def stripChars (cs : List Char) : List Char :=
  ((cs.dropWhile pyIsSpace).reverse.dropWhile pyIsSpace).reverse

/-- Python `str.strip()`. -/
def pyStrip (s : String) : String :=
  String.mk (stripChars s.data)

/-- Prefix test on character lists. -/
def isPrefixChars : List Char → List Char → Bool
  | [], _ => true
  | _ :: _, [] => false
  | a :: as, b :: bs => a = b && isPrefixChars as bs

/-- Infix test on character lists. -/
def isInfixChars (n : List Char) : List Char → Bool
  | [] => n.isEmpty
  | c :: t => isPrefixChars n (c :: t) || isInfixChars n t

/-- Python `needle in hay` on strings. -/
def containsStr (needle hay : String) : Bool :=
  isInfixChars needle.data hay.data

/-- Split a character list at every occurrence of `sep` (Python
`str.split(sep)` for a one-character separator). -/
def splitOnCharAux (sep : Char) : List Char → List Char → List (List Char)
  | [], acc => [acc.reverse]
  | c :: cs, acc =>
    if c = sep then acc.reverse :: splitOnCharAux sep cs []
    else splitOnCharAux sep cs (c :: acc)

/-- Python `s.split(sep)` for a one-character separator. -/
def pySplit (sep : Char) (s : String) : List String :=
  (splitOnCharAux sep s.data []).map String.mk

/-- ASCII decimal digit (the digits in the scraped dates are ASCII). -/
def isDigitCh (c : Char) : Bool :=
  '0' ≤ c && c ≤ '9'

/-- Join a list of strings with a separator (BeautifulSoup `get_text`
joins the descendant strings this way). -/
def joinSep (sep : String) : List String → String
  | [] => ""
  | [x] => x
  | x :: xs => x ++ sep ++ joinSep sep xs

/-! ## The date regex `(\d{1,2}\.\d{1,2}\.\d{4})`

`re.search` returns the leftmost match.  At a fixed start position the
match is forced (digit runs are delimited by the literal dots), so the
greedy/backtracking behaviour of `\d{1,2}` collapses to: the digit run at
the start must have length 1 or 2 and be followed by `.`, likewise for the
middle run, and at least 4 digits must follow the second dot (exactly 4
are consumed). -/

/-- Try to match `\d{1,2}\.\d{1,2}\.\d{4}` at the head of `cs`. -/
def matchDateAt (cs : List Char) : Option (List Char) :=
  let d1 := cs.takeWhile isDigitCh
  if d1.length = 0 || d1.length > 2 then none
  else
    match cs.drop d1.length with
    | '.' :: rest1 =>
      let d2 := rest1.takeWhile isDigitCh
      if d2.length = 0 || d2.length > 2 then none
      else
        match rest1.drop d2.length with
        | '.' :: rest2 =>
          let d3 := rest2.take 4
          if d3.length = 4 && d3.all isDigitCh then
            some (d1 ++ '.' :: d2 ++ '.' :: d3)
          else none
        | _ => none
    | _ => none

/-- Leftmost match of the date pattern, as `re.search` finds it. -/
def searchDateList : List Char → Option (List Char)
  | [] => none
  | c :: rest =>
    match matchDateAt (c :: rest) with
    | some m => some m
    | none => searchDateList rest

/-- `re.search(r'(\d{1,2}\.\d{1,2}\.\d{4})', s)` yielding `group(1)`. -/
def extract_date (s : String) : Option String :=
  (searchDateList s.data).map String.mk

/-! ## DOM model

`Node` models a BeautifulSoup tag tree: a text node, or an element with a
tag name, attributes (in document order) and children.  The pages and AJAX
fragments handed over by the modelled network are such trees (HTML
tokenisation itself is outside the embedding). -/

inductive Node where
  | text (s : String)
  | elem (tag : String) (attrs : List (String × String)) (children : List Node)
deriving Repr

mutual

/-- All descendant text fragments, in document order
(BeautifulSoup `tag.strings`). -/
def nodeTexts : Node → List String
  | .text s => [s]
  | .elem _ _ cs => nodeTextsList cs

/-- Text fragments of a forest, in order. -/
def nodeTextsList : List Node → List String
  | [] => []
  | n :: ns => nodeTexts n ++ nodeTextsList ns

end

mutual

/-- Strict descendants of a node matching `p`, in document order
(BeautifulSoup `tag.find_all(p)`). -/
def findAllNode (p : Node → Bool) : Node → List Node
  | .text _ => []
  | .elem _ _ cs => findAllList p cs

/-- Matches of `p` in a forest and all its descendants, in document order. -/
def findAllList (p : Node → Bool) : List Node → List Node
  | [] => []
  | c :: cs => (if p c then [c] else []) ++ findAllNode p c ++ findAllList p cs

end

/-- Attribute rendering inside a start tag. -/
def renderAttrs : List (String × String) → String
  | [] => ""
  | (k, v) :: rest => " " ++ k ++ "=\x22" ++ v ++ "\x22" ++ renderAttrs rest

mutual

/-- Raw markup of a node, as Python `str(tag)` renders it; only used for
substring tests (`'posudbaLCP' in str(status_cell)`). -/
def render : Node → String
  | .text s => s
  | .elem tag attrs cs =>
    "<" ++ tag ++ renderAttrs attrs ++ ">" ++ renderList cs ++ "</" ++ tag ++ ">"

/-- Markup of a forest. -/
def renderList : List Node → String
  | [] => ""
  | c :: cs => render c ++ renderList cs

end

/-- Attribute lookup (`tag.get(key)`), `none` when absent or on a text
node. -/
def getAttr (n : Node) (k : String) : Option String :=
  match n with
  | .text _ => none
  | .elem _ attrs _ => attrs.lookup k

/-- Python truthiness of `tag.get(key)`: `None` and `''` are falsy. -/
def attrTruthy (n : Node) (k : String) : Bool :=
  match getAttr n k with
  | none => false
  | some v => v ≠ ""

/-- Tag-name test. -/
def isTag (t : String) (n : Node) : Bool :=
  match n with
  | .text _ => false
  | .elem tag _ _ => tag = t

/-- BeautifulSoup `class_=c`: the (space-separated) `class` attribute
contains the token `c`. -/
def hasClass (c : String) (n : Node) : Bool :=
  match getAttr n "class" with
  | none => false
  | some v => (pySplit ' ' v).contains c

/-- Attribute equality filter (`find(tag, {'id': v})`). -/
def attrEq (k v : String) (n : Node) : Bool :=
  match getAttr n k with
  | none => false
  | some w => w = v

/-- BeautifulSoup `get_text(separator=sep, strip=strip)`: the descendant
strings, individually stripped (dropping the ones that become empty) when
`strip` is set, joined with `sep`. -/
def getText (sep : String) (strip : Bool) (n : Node) : String :=
  let ts := nodeTexts n
  let ts := if strip then (ts.map pyStrip).filter (fun s => s ≠ "") else ts
  joinSep sep ts

/-- First matching strict descendant (`tag.find(p)`). -/
def findFirst (p : Node → Bool) (n : Node) : Option Node :=
  (findAllNode p n).head?

/-! ## Data model

The Python code passes plain dicts around; the keys are fixed per call
site, so they become records.  `status` keeps the source's string values
`"available"` / `"borrowed"` / `"unknown"`. -/

/-- Result of `_parse_row_status` / `_parse_td_status`.  The two text
branches of `_parse_row_status` omit the `due_date` key; the only
consumer reads it with `.get('due_date', None)`, so `none` models the
missing key faithfully. -/
structure StatusInfo where
  signature : String
  status : String
  note : String
  due_date : Option String
deriving Repr, DecidableEq

/-- One entry of the report's `locations` list. -/
structure LocationStatus where
  location : String
  signature : String
  status : String
  note : String
  due_date : Option String
deriving Repr, DecidableEq

/-- The dict returned by `check_availability`.  The success branch never
puts an `error` key in the dict, so `error = none` models its absence and
`Option.isSome` models Python's `"error" in availability`. -/
structure AvailabilityReport where
  book_id : String
  title : String
  locations : List LocationStatus
  error : Option String
deriving Repr, DecidableEq

/-- Note text shared by every borrowed branch:
`f'Posuđeno do {due_date}' if due_date else 'Posuđeno'`. -/
def borrowedNote : Option String → String
  | some d => "Posuđeno do " ++ d
  | none => "Posuđeno"

/-! ## Row classifiers -/

/-- The text-fallback block of `_parse_row_status` (source lines
248-259), reached when neither the `posudbaLCP` marker nor an image
settled the row: `provjerite status` → unknown, `dostupno` → available,
anything else → `None` (the row is skipped). -/
def parse_row_status_text (status_cell : Node) (signature : String) :
    Option StatusInfo :=
  let status_text := getText "" true status_cell
  if containsStr "provjerite status" (pyLower status_text) then
    some ⟨signature, "unknown", "Status dostupan na upit (Provjerite status)", none⟩
  else if containsStr "dostupno" (pyLower status_text) then
    some ⟨signature, "available", "Dostupno", none⟩
  else none

/-- `AvailabilityChecker._parse_row_status` (source lines 202-263): the
primary-table row classifier.  The `posudbaLCP` marker is checked first
on the raw markup of the status cell; then the status image; then the
text fallback; an unrecognized row yields `none` (the Python function
returns `None`). -/
def parse_row_status (row : Node) : Option StatusInfo :=
  match findAllNode (isTag "td") row with
  | _ :: c1 :: c2 :: _ =>
    let signature := getText "" true c1
    let status_cell := c2
    if containsStr "posudbaLCP" (render status_cell) then
      some ⟨signature, "available", "📱 E-knjiga (dostupna za posudbu)", none⟩
    else
      match findFirst (isTag "img") status_cell with
      | some img =>
        let img_src := pyLower ((getAttr img "src").getD "")
        if containsStr "za_posudbu" img_src then
          some ⟨signature, "available", "Dostupno", none⟩
        else if containsStr "posudjeno" img_src || containsStr "posuđeno" img_src then
          let due_date := extract_date (getText "" false status_cell)
          some ⟨signature, "borrowed", borrowedNote due_date, due_date⟩
        else parse_row_status_text status_cell signature
      | none => parse_row_status_text status_cell signature
  | _ => none

/-- The text-fallback block of `_parse_td_status` (source lines
477-506), reached when there is no image or the image's source matched
nothing: `posuđeno`/`posudeno` → borrowed with date extraction,
`provjerite` → available, anything else → an `unknown` entry carrying
the raw cell text. -/
def parse_td_status_text (status_td : Node) (signature : String) :
    Option StatusInfo :=
  let status_text := getText "" true status_td
  let status_lower := pyLower status_text
  if containsStr "posuđeno" status_lower || containsStr "posudeno" status_lower then
    let due_date := extract_date status_text
    some ⟨signature, "borrowed", borrowedNote due_date, due_date⟩
  else if containsStr "provjerite" status_lower then
    some ⟨signature, "available", "Dostupno (provjerite status)", none⟩
  else
    some ⟨signature, "unknown", status_text, none⟩

/-- `AvailabilityChecker._parse_td_status` (source lines 446-510): the
AJAX-fragment status-cell classifier.  It has no `posudbaLCP` branch, the
image is inspected first (borrowed before available), and the final text
fallback maps everything unrecognized to an `unknown` entry carrying the
raw cell text — it never drops a row. -/
def parse_td_status (status_td : Node) (signature : String) : Option StatusInfo :=
  let status_text := getText "" true status_td
  match findFirst (isTag "img") status_td with
  | some img =>
    let img_src := pyLower ((getAttr img "src").getD "")
    if containsStr "posudjeno" img_src || containsStr "posuđeno" img_src then
      let due_date := extract_date status_text
      some ⟨signature, "borrowed", borrowedNote due_date, due_date⟩
    else if containsStr "za_posudbu" img_src || containsStr "dostupno" img_src then
      some ⟨signature, "available", "Dostupno", none⟩
    else parse_td_status_text status_td signature
  | none => parse_td_status_text status_td signature

/-! ## Location-name cleaning (`_extract_location_name`)

`re.sub(r',.*?tel:.*', '', text)`: a match starts at a comma that has
`tel:` later on the same line and extends to the end of that line; the
lazy/greedy parts only fix which comma and how far, collapsing to exactly
that description.  `re.sub(r',\s*\d+.*', '', ...)`: a match starts at a
comma followed by optional whitespace and at least one digit, and extends
to the end of the line holding the digits.  Both substitutions repeat on
the remaining text; the recursion is fuelled by the string length (each
step consumes at least one character). -/

/-- One pass of `re.sub(r',.*?tel:.*', '', s)`, fuelled. -/
def subCommaTelAux : Nat → List Char → List Char
  | 0, cs => cs
  | _ + 1, [] => []
  | fuel + 1, c :: rest =>
    if c = ',' && isInfixChars "tel:".data (rest.takeWhile (fun d => d ≠ '\n')) then
      subCommaTelAux fuel (rest.dropWhile (fun d => d ≠ '\n'))
    else
      c :: subCommaTelAux fuel rest

/-- `re.sub(r',.*?tel:.*', '', s)`. -/
def subCommaTel (s : String) : String :=
  String.mk (subCommaTelAux s.data.length s.data)

/-- One pass of `re.sub(r',\s*\d+.*', '', s)`, fuelled. -/
def subCommaDigitsAux : Nat → List Char → List Char
  | 0, cs => cs
  | _ + 1, [] => []
  | fuel + 1, c :: rest =>
    let afterWs := rest.dropWhile pyIsSpace
    if c = ',' && (afterWs.headD ' ' |> isDigitCh) then
      subCommaDigitsAux fuel ((afterWs.dropWhile isDigitCh).dropWhile (fun d => d ≠ '\n'))
    else
      c :: subCommaDigitsAux fuel rest

/-- `re.sub(r',\s*\d+.*', '', s)`. -/
def subCommaDigits (s : String) : String :=
  String.mk (subCommaDigitsAux s.data.length s.data)

/-- `AvailabilityChecker._extract_location_name` (source lines 186-200):
strip address/phone and house-number tails; if nothing is left, fall back
to the text before the first comma; return the stripped result. -/
def extract_location_name (text : String) : String :=
  let clean_text := subCommaDigits (subCommaTel text)
  if pyStrip clean_text = "" then
    pyStrip ((pySplit ',' text).headD "")
  else
    pyStrip clean_text

/-! ## Table parsers -/

/-- The data-row block of `_parse_locations` (source lines 166-183).  In
the source this block sits at the indentation level of the
`for row in rows:` header, so it executes once, after the loop, on the
final value of the loop variable `row`. -/
def parse_locations_postloop (current_library : String) (row : Node) :
    List LocationStatus :=
  let cells := findAllNode (isTag "td") row
  if cells.length ≥ 3 && !attrTruthy row "hidden" then
    match parse_row_status row with
    | some status_info =>
      let specific_dep := getText "" true (cells.headD (Node.text ""))
      [⟨current_library ++ " (" ++ specific_dep ++ ")",
        status_info.signature, status_info.status, status_info.note,
        status_info.due_date⟩]
    | none => []
  else
    []

/-- The table-lookup cascade of `_parse_locations` (source lines
114-141): `table.tblData`, else `table#tableBibliografskiZapis`, else the
first table whose text contains `Status`.  Its result only gates the
early return — line 144 then looks up `tblData` again. -/
def parse_locations_table_cascade (doc : Node) : Option Node :=
  let all_tables := findAllNode (isTag "table") doc
  match findFirst (fun n => isTag "table" n && hasClass "tblData" n) doc with
  | some t => some t
  | none =>
    match findFirst (fun n => isTag "table" n && attrEq "id" "tableBibliografskiZapis" n) doc with
    | some t => some t
    | none => (all_tables.filter (fun t => containsStr "Status" (getText "" false t))).head?

/-- `AvailabilityChecker._parse_locations` (source lines 111-184): the
primary-table parser.  The source's `for row in rows:` loop body covers
only the branch-header update and the column-header skip; the data-row
block below it is indented at the loop's own level, so it runs once,
after the loop, on the loop variable — the table's last row.  With no
rows the loop variable is unbound and the function raises `NameError`
(modelled as `none`; the function has no handler of its own). -/
def parse_locations (doc : Node) : Option (List LocationStatus) :=
  match parse_locations_table_cascade doc with
  | none => some []
  | some _ =>
    match findFirst (fun n => isTag "table" n && hasClass "tblData" n) doc with
    | none => some []
    | some table =>
      let rows := findAllNode (isTag "tr") table
      let current_library := rows.foldl
        (fun acc row =>
          match findFirst (fun n => isTag "td" n && hasClass "tdKnjiznicaNaziv" n) row with
          | some lib_header =>
            pyStrip (((pySplit '|' (getText "|" false lib_header))).headD "")
          | none => acc)
        "Središnja knjižnica"
      match rows.getLast? with
      | none => none
      | some row => some (parse_locations_postloop current_library row)

/-- Loop state of `_parse_ajax_locations`: the `current_location`
variable and the accumulated entries. -/
def parse_ajax_step (st : Option String × List LocationStatus) (row : Node) :
    Option String × List LocationStatus :=
  let (current_location, acc) := st
  match findAllNode (isTag "td") row with
  | [] => (current_location, acc)
  | c0 :: restCells =>
    let first_cell_text := getText "" true c0
    if containsStr "tel:" first_cell_text then
      (some (extract_location_name first_cell_text), acc)
    else if (c0 :: restCells).length ≥ 3 && first_cell_text = "Lokacija" then
      (current_location, acc)
    else
      match current_location, restCells with
      | some loc, c1 :: c2 :: _ =>
        if loc ≠ "" then
          let location_detail := getText "" true c0
          let signature := getText "" true c1
          match parse_td_status c2 signature with
          | some si =>
            (current_location,
             acc ++ [⟨loc ++ " (" ++ location_detail ++ ")",
                      si.signature, si.status, si.note, si.due_date⟩])
          | none => (current_location, acc)
        else (current_location, acc)
      | _, _ => (current_location, acc)

/-- `AvailabilityChecker._parse_ajax_locations` (source lines 376-444):
take the first table of the fragment; walk its rows keeping
`current_location` (set by rows whose first cell contains `tel:`,
cleared never); skip the `Lokacija` header row; emit an entry for every
data row with at least three cells under a truthy current location. -/
def parse_ajax_locations (frag : Node) : List LocationStatus :=
  match (findAllNode (isTag "table") frag).head? with
  | none => []
  | some table =>
    let rows := findAllNode (isTag "tr") table
    (rows.foldl parse_ajax_step (none, [])).2

/-- Title extraction from `check_availability` (source lines 278-283):
`div#divNaslov` then `span.hidden` inside it; default `"Nepoznato"`. -/
def extract_title (body : Node) : String :=
  match findFirst (fun n => isTag "div" n && attrEq "id" "divNaslov" n) body with
  | none => "Nepoznato"
  | some title_div =>
    match findFirst (fun n => isTag "span" n && hasClass "hidden" n) title_div with
    | none => "Nepoznato"
    | some title_span => getText "" true title_span

/-! ## Network model

`requests.Session` keeps a cookie jar that every request sends and every
response may update; `AvailabilityChecker.__init__` creates one such
session, shared by all calls on the instance (`src/api/main.py` holds a
single module-level instance).  A `World` gives the remote side's
behaviour: for a request and the jar sent with it, either an exception
(whose `str` is the message) or a response together with the updated jar.
`raise_for_status` raises exactly for status codes ≥ 400; the jar update
from such a response has already happened when it raises. -/

/-- Cookie jar of a `requests.Session`. -/
abbrev Cookies := List (String × String)

/-- A fresh `requests.Session()` starts with an empty jar. -/
def freshSession : Cookies := []

/-- An HTTP response: status code and already-parsed body DOM. -/
structure Response where
  status : Nat
  body : Node

/-- The remote catalog plus transport, as seen through
`session.get` / `session.post`.  Arguments: url, headers, (for `post`)
form data, and the cookie jar sent; result: exception text, or response
and updated jar. -/
structure World where
  get : String → List (String × String) → Cookies →
    Except String (Response × Cookies)
  post : String → List (String × String) → List (String × String) → Cookies →
    Except String (Response × Cookies)

/-- `self.base_url`. -/
def base_url : String := "https://katalog.halubajska-zora.hr"

/-- URL of the record page (source lines 44 and 269). -/
def record_url (book_id : String) : String :=
  base_url ++ "/pagesResults/bibliografskiZapis.aspx?selectedId=" ++ book_id

/-- URL of the AJAX POST (source line 314). -/
def ajax_url : String := base_url ++ "/pagesResults/bibliografskiZapis.aspx"

/-- Headers installed on the session by `__init__`. -/
def session_headers : List (String × String) :=
  [("User-Agent", "Mozilla/5.0 (Windows NT 10.0; Win64; x64)")]

/-- Headers of the AJAX POST (source lines 317-323). -/
def ajax_headers (book_id : String) : List (String × String) :=
  [("Accept", "text/html, */*; q=0.01"),
   ("Content-Type", "application/x-www-form-urlencoded; charset=UTF-8"),
   ("X-Requested-With", "XMLHttpRequest"),
   ("Origin", base_url),
   ("Referer", record_url book_id)]

/-- Form data of the AJAX POST (source lines 326-330); `rand` stands for
the fresh `random.random()` value. -/
def ajax_data (book_id rand : String) : List (String × String) :=
  [("action", "getLokacije"), ("bibliografskiZapisId", book_id), ("random", rand)]

/-- `response.raise_for_status()` raises for 4xx/5xx. -/
def httpFails (status : Nat) : Bool := status ≥ 400

/-- Exception text of `raise_for_status` (stands for the library's
`HTTPError` message; only its presence matters to the claims). -/
def httpErrorText (status : Nat) : String :=
  "HTTPError " ++ toString status

/-- `AvailabilityChecker._get_locations_ajax_post` (source lines
308-374): POST the `getLokacije` action with the session jar; any
exception — transport failure or `raise_for_status` — is caught and an
empty list returned.  Returns the rows and the jar left in the session. -/
def get_locations_ajax_post (w : World) (jar : Cookies) (book_id rand : String) :
    List LocationStatus × Cookies :=
  match w.post ajax_url (ajax_headers book_id) (ajax_data book_id rand) jar with
  | .error _ => ([], jar)
  | .ok (resp, jar') =>
    if httpFails resp.status then ([], jar')
    else (parse_ajax_locations resp.body, jar')

/-- The page fetch of `check_availability` fails: the GET raises
(transport) or `raise_for_status` does (status ≥ 400). -/
def fetch_fails_b (w : World) (jar : Cookies) (book_id : String) : Bool :=
  match w.get (record_url book_id) session_headers jar with
  | .error _ => true
  | .ok (r, _) => httpFails r.status

/-- The AJAX POST of `_get_locations_ajax_post` fails: transport error or
status ≥ 400. -/
def ajax_post_fails_b (w : World) (jar : Cookies) (book_id rand : String) : Bool :=
  match w.post ajax_url (ajax_headers book_id) (ajax_data book_id rand) jar with
  | .error _ => true
  | .ok (r, _) => httpFails r.status

/-- The error dict built by the `except` branch of `check_availability`
(source lines 297-306). -/
def errorReport (book_id e : String) : AvailabilityReport :=
  ⟨book_id, "Greška", [], some e⟩

/-- `AvailabilityChecker.check_availability` — the second, surviving
definition (source lines 265-306): GET the record page with the shared
session (its cookies persist on the instance), extract the title, then
fetch the locations through the AJAX POST; any exception of the GET or
`raise_for_status` yields the error report.  Returns the report and the
session jar left behind for the next call on the instance. -/
def check_availability (w : World) (jar : Cookies) (book_id rand : String) :
    AvailabilityReport × Cookies :=
  match w.get (record_url book_id) session_headers jar with
  | .error e => (errorReport book_id e, jar)
  | .ok (resp, jar₁) =>
    if httpFails resp.status then (errorReport book_id (httpErrorText resp.status), jar₁)
    else
      let title := extract_title resp.body
      let (locations, jar₂) := get_locations_ajax_post w jar₁ book_id rand
      (⟨book_id, title, locations, none⟩, jar₂)

/-- The fixed apology of the formatter's error branch (source line 84). -/
def apologyMessage : String :=
  "Žao mi je, trenutno ne mogu provjeriti status u katalogu. Molim vas pokušajte kasnije."

/-- Per-location block of the formatted message (source lines 91-107). -/
def formatLocation (loc : LocationStatus) : String :=
  let pair :=
    if loc.status = "available" then ("✅", "Slobodno")
    else if loc.status = "borrowed" then
      ("❌", match loc.due_date with
            | some d => "Posuđeno (rok: " ++ d ++ ")"
            | none => "Posuđeno")
    else ("❓", "Nepoznato")
  "\n" ++ pair.1 ++ " **" ++ loc.location ++ "**" ++
    "\n   Status: " ++ pair.2 ++
    "\n   Signatura: `" ++ loc.signature ++ "`\n"

/-- `AvailabilityChecker.format_availability_message` (source lines
79-109): a report with an `error` key becomes the fixed apology; an
empty `locations` list becomes the not-found sentence; otherwise a
header plus one block per location. -/
def format_availability_message (a : AvailabilityReport) : String :=
  if a.error.isSome then
    apologyMessage
  else if a.locations.isEmpty then
    "Nažalost, trenutno ne mogu pronaći podatke o dostupnosti za knjigu: **" ++
      a.title ++ "**."
  else
    a.locations.foldl (fun msg loc => msg ++ formatLocation loc)
      ("🔍 **Status za: " ++ a.title ++ "**\n")

/-- `GET /api/books/{book_id}/availability` (`src/api/main.py` lines
102-111): calls `check_availability` on the module-level shared checker
and returns the dict verbatim; the surrounding `except` only fires if
`check_availability` itself raises, which it never does. -/
def check_book_availability (w : World) (jar : Cookies) (book_id rand : String) :
    AvailabilityReport :=
  (check_availability w jar book_id rand).1

/-! ## Refinement companion (from the spec's words)

The spec's testable property §8.1 counts "data rows with a recognized
status cell" of the primary table.  This definition follows the spec's
words (not the source): walk the rows of the `tblData` table, drop
branch-marker rows and column-header rows, and count the remaining rows
with at least three cells, not hidden, whose status cell the row
classifier recognizes. -/
def spec_recognizedDataRowCount (doc : Node) : Nat :=
  match findFirst (fun n => isTag "table" n && hasClass "tblData" n) doc with
  | none => 0
  | some table =>
    ((findAllNode (isTag "tr") table).filter (fun row =>
      (findFirst (fun n => isTag "td" n && hasClass "tdKnjiznicaNaziv" n) row).isNone &&
      !containsStr "Signatura" (getText "" false row) &&
      !containsStr "Ident" (getText "" false row) &&
      decide ((findAllNode (isTag "td") row).length ≥ 3) &&
      !attrTruthy row "hidden" &&
      (parse_row_status row).isSome)).length

/-! ## Concrete fixtures

Small documents and environments used by the counterexamples and
witnesses. -/

/-- `<img src="...za_posudbu.png">` — the "available" check mark. -/
def imgAvail : Node := .elem "img" [("src", "/images/za_posudbu.png")] []

/-- `<img src="...posudjeno.png">` — the "borrowed" mark. -/
def imgBorrowed : Node := .elem "img" [("src", "/images/posudjeno.png")] []

/-- A `td` holding only text. -/
def tdWithText (s : String) : Node := .elem "td" [] [.text s]

/-- Branch-marker row of the primary table. -/
def branchRow : Node :=
  .elem "tr" [] [.elem "td" [("class", "tdKnjiznicaNaziv")]
    [.text "Središnja knjižnica Kastav"]]

/-- Column-header row of the primary table. -/
def headerRowTbl : Node :=
  .elem "tr" [] [tdWithText "Lokacija", tdWithText "Signatura", tdWithText "Status"]

/-- First recognized data row (available copy). -/
def dataRow1 : Node :=
  .elem "tr" [] [tdWithText "281 Opći fond", tdWithText "SIG-1", .elem "td" [] [imgAvail]]

/-- Second recognized data row (available copy). -/
def dataRow2 : Node :=
  .elem "tr" [] [tdWithText "282 Dječji odjel", tdWithText "SIG-2", .elem "td" [] [imgAvail]]

/-- A record page whose primary `tblData` table holds one branch row, one
header row and two recognized data rows. -/
def pagePrimary : Node :=
  .elem "[document]" [] [
    .elem "div" [("id", "divNaslov")]
      [.elem "span" [("class", "hidden")] [.text "Testna knjiga"]],
    .elem "table" [("class", "tblData")] [branchRow, headerRowTbl, dataRow1, dataRow2]]

/-- The single entry the buggy primary-table parser produces for
`pagePrimary` (from its last row only). -/
def primaryRowEntry : LocationStatus :=
  ⟨"Središnja knjižnica Kastav (282 Dječji odjel)", "SIG-2", "available", "Dostupno", none⟩

/-- An AJAX response fragment with no table at all. -/
def fragEmptyDoc : Node := .elem "[document]" [] [.text "nema podataka"]

/-- Location-marker row of an AJAX fragment (`tel:` in the first cell). -/
def ajaxLocRow : Node :=
  .elem "tr" [] [tdWithText "Središnja knjižnica, tel: 051-123-456"]

/-- Status cell with no marker, no image, and none of the known text
substrings. -/
def tdUnrecognized : Node := tdWithText "———"

/-- AJAX data row whose status cell is unrecognizable. -/
def ajaxUnknownRow : Node :=
  .elem "tr" [] [tdWithText "281 Opći fond", tdWithText "SIG-9", tdUnrecognized]

/-- AJAX fragment: a location marker followed by one unrecognizable data
row. -/
def fragUnknownDoc : Node :=
  .elem "[document]" [] [.elem "table" [] [ajaxLocRow, ajaxUnknownRow]]

/-- Status cell carrying both the `posudbaLCP` marker and a borrowed
image. -/
def tdLcpBorrowed : Node :=
  .elem "td" [("onclick", "posudbaLCP(42)")] [imgBorrowed, .text "Posuđeno do 15.3.2025"]

/-- Status cell carrying both the `posudbaLCP` marker and the available
image. -/
def tdLcpAvail : Node :=
  .elem "td" [("onclick", "posudbaLCP(42)")] [imgAvail]

/-- Primary-table row whose status cell carries the `posudbaLCP` marker
and an available image. -/
def rowLcp : Node :=
  .elem "tr" [] [tdWithText "281 Opći fond", tdWithText "SIG-D", tdLcpAvail]

/-- Primary-table row with an unrecognizable status cell. -/
def rowUnrecognized : Node :=
  .elem "tr" [] [tdWithText "281 Opći fond", tdWithText "SIG-8", tdUnrecognized]

/-- Primary-table row whose status cell says `Provjerite status`. -/
def rowProvjerite : Node :=
  .elem "tr" [] [tdWithText "281 Opći fond", tdWithText "SIG-P", tdWithText "Provjerite status"]

/-- Primary-table row whose status cell says `Dostupno`. -/
def rowDostupno : Node :=
  .elem "tr" [] [tdWithText "281 Opći fond", tdWithText "SIG-A", tdWithText "Dostupno"]

/-- Environment for the no-fallback counterexamples: the record page has
the primary table with two recognized rows, the AJAX POST answers with a
fragment holding no table (zero parsed rows). -/
def w_emptyAjax : World where
  get := fun _ _ jar => .ok (⟨200, pagePrimary⟩, jar)
  post := fun _ _ _ jar => .ok (⟨200, fragEmptyDoc⟩, jar)

/-- Environment whose page fetch always raises (connection timeout). -/
def w_timeout : World where
  get := fun _ _ _ => .error "Connection timed out"
  post := fun _ _ _ jar => .ok (⟨200, fragEmptyDoc⟩, jar)

/-- Environment where the page fetch succeeds but the AJAX POST raises. -/
def w_postFail : World where
  get := fun _ _ jar => .ok (⟨200, pagePrimary⟩, jar)
  post := fun _ _ _ _ => .error "AJAX POST failed"

/-- Environment that blocks any request carrying the `seen` cookie and
sets that cookie on the first successful page fetch: distinguishes a
fresh session from one left over by an earlier call. -/
def w_session : World where
  get := fun _ _ jar =>
    if jar.contains ("seen", "1") then .error "blocked by server"
    else .ok (⟨200, pagePrimary⟩, ("seen", "1") :: jar)
  post := fun _ _ _ jar => .ok (⟨200, fragEmptyDoc⟩, jar)

/-! ## Shared helper lemmas -/

/-- The post-loop data-row block emits at most one entry. -/
theorem postloop_len_le_one (cl : String) (row : Node) :
    (parse_locations_postloop cl row).length ≤ 1 := by
  simp only [parse_locations_postloop]
  split
  · split <;> simp
  · simp

/-! ## Claims -/

/-- C1 (counterexample).  The AJAX step of `w_emptyAjax` yields zero
parsed rows while the initially fetched record page parses to one row,
yet the report's `locations` is empty: `check_availability` never falls
back to the rows of the initial page. -/
theorem C1_counterexample :
    (get_locations_ajax_post w_emptyAjax freshSession "428003512" "0.5").1 = [] ∧
    parse_locations pagePrimary = some [primaryRowEntry] ∧
    (check_availability w_emptyAjax freshSession "428003512" "0.5").1.locations = [] := by
  decide

/-- C1 (corrected): when the record-page GET succeeds, the report's
`locations` are exactly the rows of the AJAX step — there is no fallback
to rows parsed from the initial page, so zero AJAX rows always yield an
empty `locations` list regardless of the initial page's markup. -/
theorem C1_no_fallback (w : World) (jar : Cookies) (book_id rand : String)
    (resp : Response) (jar₁ : Cookies)
    (hget : w.get (record_url book_id) session_headers jar = .ok (resp, jar₁))
    (hok : httpFails resp.status = false) :
    (check_availability w jar book_id rand).1.locations =
      (get_locations_ajax_post w jar₁ book_id rand).1 := by
  unfold check_availability
  rw [hget]
  simp [hok]

/-- C1 (witness): the no-fallback theorem applied to the concrete
environment whose AJAX step yields zero rows. -/
theorem C1_no_fallback_witness :
    (check_availability w_emptyAjax freshSession "428003512" "0.5").1.locations =
      (get_locations_ajax_post w_emptyAjax freshSession "428003512" "0.5").1 :=
  C1_no_fallback w_emptyAjax freshSession "428003512" "0.5" ⟨200, pagePrimary⟩
    freshSession rfl (by decide)

/-- C2 (counterexample).  `pagePrimary` carries the `tblData` table with
two data rows whose status cells the classifier recognizes, yet the
report's `locations` has length 0, not 2. -/
theorem C2_counterexample :
    (findFirst (fun n => isTag "table" n && hasClass "tblData" n) pagePrimary).isSome = true ∧
    spec_recognizedDataRowCount pagePrimary = 2 ∧
    (check_availability w_emptyAjax freshSession "428003512" "0.5").1.locations.length ≠ 2 := by
  decide

/-- C2 (corrected): the primary-table parser classifies only the final
row of the table — its result always has at most one entry — and
`check_availability` does not consult the primary table at all: on a
successful page fetch the report's `locations` are the AJAX-step rows. -/
theorem C2_last_row_only :
    (∀ (doc : Node) (l : List LocationStatus),
      parse_locations doc = some l → l.length ≤ 1) ∧
    (∀ (w : World) (jar : Cookies) (book_id rand : String)
      (resp : Response) (jar₁ : Cookies),
      w.get (record_url book_id) session_headers jar = .ok (resp, jar₁) →
      httpFails resp.status = false →
      (check_availability w jar book_id rand).1.locations =
        (get_locations_ajax_post w jar₁ book_id rand).1) := by
  constructor
  · intro doc l h
    unfold parse_locations at h
    split at h
    · cases h; simp
    · split at h
      · cases h; simp
      · simp only [] at h
        split at h
        · cases h
        · cases h; exact postloop_len_le_one _ _
  · intro w jar book_id rand resp jar₁ hget hok
    unfold check_availability
    rw [hget]
    simp [hok]

/-- C2 (witness): both parts of the corrected claim at the concrete
two-row fixture page. -/
theorem C2_last_row_only_witness :
    [primaryRowEntry].length ≤ 1 ∧
    (check_availability w_emptyAjax freshSession "428003512" "0.5").1.locations =
      (get_locations_ajax_post w_emptyAjax freshSession "428003512" "0.5").1 :=
  ⟨C2_last_row_only.1 pagePrimary [primaryRowEntry] (by decide),
   C2_last_row_only.2 w_emptyAjax freshSession "428003512" "0.5" ⟨200, pagePrimary⟩
     freshSession rfl (by decide)⟩

/-- C3 (counterexample).  A status cell whose raw markup contains the
`posudbaLCP` token and which also holds a borrowed image: the
AJAX-fragment classifier inspects the image first and returns Borrowed,
not the digital-item Available result the claim requires of every
parsing strategy. -/
theorem C3_counterexample :
    containsStr "posudbaLCP" (render tdLcpBorrowed) = true ∧
    (findFirst (isTag "img") tdLcpBorrowed).isSome = true ∧
    parse_td_status tdLcpBorrowed "SIG-3" =
      some ⟨"SIG-3", "borrowed", "Posuđeno do 15.3.2025", some "15.3.2025"⟩ ∧
    parse_td_status tdLcpBorrowed "SIG-3" ≠
      some ⟨"SIG-3", "available", "📱 E-knjiga (dostupna za posudbu)", none⟩ := by
  decide

/-- C3 (corrected): the `posudbaLCP` marker takes precedence over image
inspection in the primary-table classifier only — there, any data row
whose status cell's raw markup contains the token classifies as the
digital-item Available entry with no due date, whatever else the cell
holds.  The AJAX-fragment classifier has no marker check. -/
theorem C3_marker_precedence_primary_only (row : Node) (c0 c1 c2 : Node)
    (rest : List Node)
    (hcells : findAllNode (isTag "td") row = c0 :: c1 :: c2 :: rest)
    (hmark : containsStr "posudbaLCP" (render c2) = true) :
    parse_row_status row =
      some ⟨getText "" true c1, "available", "📱 E-knjiga (dostupna za posudbu)", none⟩ := by
  unfold parse_row_status
  rw [hcells]
  simp [hmark]

/-- C3 (witness): the marker wins over an available image in the
primary-table classifier, at a concrete row. -/
theorem C3_marker_precedence_primary_only_witness :
    parse_row_status rowLcp =
      some ⟨getText "" true (tdWithText "SIG-D"), "available",
        "📱 E-knjiga (dostupna za posudbu)", none⟩ :=
  C3_marker_precedence_primary_only rowLcp (tdWithText "281 Opći fond")
    (tdWithText "SIG-D") tdLcpAvail [] rfl (by decide)

/-- C4 (counterexample).  A data row whose status cell carries no marker,
no image and none of the known substrings is still emitted by the
AJAX-fragment parsing path, as an Unknown entry carrying the raw cell
text — it is not dropped. -/
theorem C4_counterexample :
    (findFirst (isTag "img") tdUnrecognized).isNone = true ∧
    containsStr "posudbaLCP" (render tdUnrecognized) = false ∧
    containsStr "provjerite" (pyLower (getText "" true tdUnrecognized)) = false ∧
    containsStr "posuđeno" (pyLower (getText "" true tdUnrecognized)) = false ∧
    containsStr "posudeno" (pyLower (getText "" true tdUnrecognized)) = false ∧
    containsStr "dostupno" (pyLower (getText "" true tdUnrecognized)) = false ∧
    parse_ajax_locations fragUnknownDoc =
      [⟨"Središnja knjižnica (281 Opći fond)", "SIG-9", "unknown", "———", none⟩] := by
  decide

/-- C4 (corrected): unrecognized rows are dropped by the primary-table
classifier only; the AJAX-fragment classifier instead emits an Unknown
entry whose note is the raw cell text. -/
theorem C4_unrecognized_dropped_primary_only :
    (∀ (row : Node) (c0 c1 c2 : Node) (rest : List Node),
      findAllNode (isTag "td") row = c0 :: c1 :: c2 :: rest →
      containsStr "posudbaLCP" (render c2) = false →
      findFirst (isTag "img") c2 = none →
      containsStr "provjerite status" (pyLower (getText "" true c2)) = false →
      containsStr "dostupno" (pyLower (getText "" true c2)) = false →
      parse_row_status row = none) ∧
    (∀ (td : Node) (sig : String),
      findFirst (isTag "img") td = none →
      containsStr "posuđeno" (pyLower (getText "" true td)) = false →
      containsStr "posudeno" (pyLower (getText "" true td)) = false →
      containsStr "provjerite" (pyLower (getText "" true td)) = false →
      parse_td_status td sig = some ⟨sig, "unknown", getText "" true td, none⟩) := by
  constructor
  · intro row c0 c1 c2 rest hcells hmark himg hprov hdost
    unfold parse_row_status parse_row_status_text
    rw [hcells]
    simp [hmark, himg, hprov, hdost]
  · intro td sig himg hp1 hp2 hprov
    unfold parse_td_status parse_td_status_text
    simp [himg, hp1, hp2, hprov]

/-- C4 (witness): the same unrecognizable status cell is dropped by the
primary-table classifier and emitted as Unknown by the AJAX-fragment
classifier. -/
theorem C4_unrecognized_dropped_primary_only_witness :
    parse_row_status rowUnrecognized = none ∧
    parse_td_status tdUnrecognized "SIG-8" =
      some ⟨"SIG-8", "unknown", getText "" true tdUnrecognized, none⟩ :=
  ⟨C4_unrecognized_dropped_primary_only.1 rowUnrecognized (tdWithText "281 Opći fond")
      (tdWithText "SIG-8") tdUnrecognized [] rfl (by decide) rfl (by decide) (by decide),
   C4_unrecognized_dropped_primary_only.2 tdUnrecognized "SIG-8"
      rfl (by decide) (by decide) (by decide)⟩

/-- C5 (counterexample).  In the AJAX-fragment classifier a cell saying
`Provjerite status` classifies as Available (not Unknown), and a cell
saying `Dostupno` classifies as Unknown (not Available): the claimed
uniform text mapping fails in that parsing path. -/
theorem C5_counterexample :
    parse_td_status (tdWithText "Provjerite status") "S" =
      some ⟨"S", "available", "Dostupno (provjerite status)", none⟩ ∧
    (parse_td_status (tdWithText "Provjerite status") "S").map StatusInfo.status ≠
      some "unknown" ∧
    parse_td_status (tdWithText "Dostupno") "S" = some ⟨"S", "unknown", "Dostupno", none⟩ ∧
    (parse_td_status (tdWithText "Dostupno") "S").map StatusInfo.status ≠
      some "available" := by
  decide

/-- C5 (corrected): the text classification differs per path.  The
primary-table classifier maps `provjerite status` to Unknown and
`dostupno` to Available (and has no borrowed-text branch); the
AJAX-fragment classifier maps `posuđeno`/`posudeno` to Borrowed with
date extraction and `provjerite` to Available. -/
theorem C5_text_mapping_per_path :
    (∀ (row : Node) (c0 c1 c2 : Node) (rest : List Node),
      findAllNode (isTag "td") row = c0 :: c1 :: c2 :: rest →
      containsStr "posudbaLCP" (render c2) = false →
      findFirst (isTag "img") c2 = none →
      containsStr "provjerite status" (pyLower (getText "" true c2)) = true →
      parse_row_status row = some ⟨getText "" true c1, "unknown",
        "Status dostupan na upit (Provjerite status)", none⟩) ∧
    (∀ (row : Node) (c0 c1 c2 : Node) (rest : List Node),
      findAllNode (isTag "td") row = c0 :: c1 :: c2 :: rest →
      containsStr "posudbaLCP" (render c2) = false →
      findFirst (isTag "img") c2 = none →
      containsStr "provjerite status" (pyLower (getText "" true c2)) = false →
      containsStr "dostupno" (pyLower (getText "" true c2)) = true →
      parse_row_status row = some ⟨getText "" true c1, "available", "Dostupno", none⟩) ∧
    (∀ (td : Node) (sig : String),
      findFirst (isTag "img") td = none →
      (containsStr "posuđeno" (pyLower (getText "" true td)) ||
        containsStr "posudeno" (pyLower (getText "" true td))) = true →
      parse_td_status td sig =
        some ⟨sig, "borrowed", borrowedNote (extract_date (getText "" true td)),
          extract_date (getText "" true td)⟩) ∧
    (∀ (td : Node) (sig : String),
      findFirst (isTag "img") td = none →
      containsStr "posuđeno" (pyLower (getText "" true td)) = false →
      containsStr "posudeno" (pyLower (getText "" true td)) = false →
      containsStr "provjerite" (pyLower (getText "" true td)) = true →
      parse_td_status td sig =
        some ⟨sig, "available", "Dostupno (provjerite status)", none⟩) := by
  refine ⟨?_, ?_, ?_, ?_⟩
  · intro row c0 c1 c2 rest hcells hmark himg hprov
    unfold parse_row_status parse_row_status_text
    rw [hcells]
    simp [hmark, himg, hprov]
  · intro row c0 c1 c2 rest hcells hmark himg hprov hdost
    unfold parse_row_status parse_row_status_text
    rw [hcells]
    simp [hmark, himg, hprov, hdost]
  · intro td sig himg hpos
    unfold parse_td_status parse_td_status_text
    simp [himg, hpos]
  · intro td sig himg hp1 hp2 hprov
    unfold parse_td_status parse_td_status_text
    simp [himg, hp1, hp2, hprov]

/-- C5 (witness): all four per-path text mappings at concrete cells. -/
theorem C5_text_mapping_per_path_witness :
    parse_row_status rowProvjerite = some ⟨getText "" true (tdWithText "SIG-P"), "unknown",
      "Status dostupan na upit (Provjerite status)", none⟩ ∧
    parse_row_status rowDostupno =
      some ⟨getText "" true (tdWithText "SIG-A"), "available", "Dostupno", none⟩ ∧
    parse_td_status (tdWithText "Posuđeno do 15.3.2025") "S" =
      some ⟨"S", "borrowed",
        borrowedNote (extract_date (getText "" true (tdWithText "Posuđeno do 15.3.2025"))),
        extract_date (getText "" true (tdWithText "Posuđeno do 15.3.2025"))⟩ ∧
    parse_td_status (tdWithText "Provjerite status") "S" =
      some ⟨"S", "available", "Dostupno (provjerite status)", none⟩ :=
  ⟨C5_text_mapping_per_path.1 rowProvjerite (tdWithText "281 Opći fond")
      (tdWithText "SIG-P") (tdWithText "Provjerite status") [] rfl
      (by decide) rfl (by decide),
   C5_text_mapping_per_path.2.1 rowDostupno (tdWithText "281 Opći fond")
      (tdWithText "SIG-A") (tdWithText "Dostupno") [] rfl
      (by decide) rfl (by decide) (by decide),
   C5_text_mapping_per_path.2.2.1 (tdWithText "Posuđeno do 15.3.2025") "S"
      rfl (by decide),
   C5_text_mapping_per_path.2.2.2 (tdWithText "Provjerite status") "S"
      rfl (by decide) (by decide) (by decide)⟩

/-- C6 (confirmed): every cell classified Borrowed gets its due date as
the leftmost `D.M.YYYY`/`DD.MM.YYYY` match of the cell text and a note
built from it; concretely, cell text `Posuđeno do 15.3.2025` yields
dueDate `15.3.2025` with that date in the note, and a borrowed cell
without a date yields no dueDate and note `Posuđeno`. -/
theorem C6_borrowed_date_extraction :
    (∀ (td : Node) (sig : String) (si : StatusInfo),
      parse_td_status td sig = some si → si.status = "borrowed" →
      si.due_date = extract_date (getText "" true td) ∧
        si.note = borrowedNote si.due_date) ∧
    (∀ (row : Node) (c0 c1 c2 : Node) (rest : List Node) (si : StatusInfo),
      findAllNode (isTag "td") row = c0 :: c1 :: c2 :: rest →
      parse_row_status row = some si → si.status = "borrowed" →
      si.due_date = extract_date (getText "" false c2) ∧
        si.note = borrowedNote si.due_date) ∧
    parse_td_status (tdWithText "Posuđeno do 15.3.2025") "S" =
      some ⟨"S", "borrowed", "Posuđeno do 15.3.2025", some "15.3.2025"⟩ ∧
    parse_td_status (tdWithText "Posuđeno") "S" =
      some ⟨"S", "borrowed", "Posuđeno", none⟩ := by
  refine ⟨?_, ?_, by decide, by decide⟩
  · intro td sig si h hb
    simp only [parse_td_status, parse_td_status_text] at h
    repeat' split at h
    all_goals cases h
    all_goals simp_all
  · intro row c0 c1 c2 rest si hcells h hb
    simp only [parse_row_status, parse_row_status_text, hcells] at h
    repeat' split at h
    all_goals cases h
    all_goals simp_all

/-- C6 (witness): the universal borrowed-cell facts instantiated at the
concrete borrowed cell with a date. -/
theorem C6_borrowed_date_extraction_witness :
    (⟨"S", "borrowed", "Posuđeno do 15.3.2025", some "15.3.2025"⟩ : StatusInfo).due_date =
      extract_date (getText "" true (tdWithText "Posuđeno do 15.3.2025")) ∧
    (⟨"S", "borrowed", "Posuđeno do 15.3.2025", some "15.3.2025"⟩ : StatusInfo).note =
      borrowedNote (⟨"S", "borrowed", "Posuđeno do 15.3.2025", some "15.3.2025"⟩ :
        StatusInfo).due_date :=
  C6_borrowed_date_extraction.1 (tdWithText "Posuđeno do 15.3.2025") "S"
    ⟨"S", "borrowed", "Posuđeno do 15.3.2025", some "15.3.2025"⟩ (by decide) (by decide)

/-- C7 (confirmed): when the record-page fetch fails — transport error or
non-success HTTP status — the resolver returns a well-formed report with
the error field set and empty locations (it is a total function of the
environment, never an exception), and the formatter maps every report
with an error to the fixed apology sentence, rendering nothing of the
error's content. -/
theorem C7_fetch_failure_handling (w : World) (jar : Cookies) (book_id rand : String)
    (hfail : fetch_fails_b w jar book_id = true) :
    ((check_availability w jar book_id rand).1.error.isSome = true ∧
      (check_availability w jar book_id rand).1.locations = []) ∧
    (∀ a : AvailabilityReport, a.error.isSome = true →
      format_availability_message a = apologyMessage) := by
  constructor
  · unfold check_availability
    unfold fetch_fails_b at hfail
    cases hget : w.get (record_url book_id) session_headers jar with
    | error e => simp [errorReport]
    | ok p =>
      obtain ⟨resp, jar₁⟩ := p
      rw [hget] at hfail
      simp only at hfail
      simp [hfail, errorReport]
  · intro a ha
    unfold format_availability_message
    simp [ha]

/-- C7 (witness): a simulated connection timeout yields an error report
with empty locations, and the formatter output on it is the apology. -/
theorem C7_fetch_failure_handling_witness :
    ((check_availability w_timeout freshSession "1" "0.5").1.error.isSome = true ∧
      (check_availability w_timeout freshSession "1" "0.5").1.locations = []) ∧
    format_availability_message ⟨"1", "Greška", [], some "Connection timed out"⟩ =
      apologyMessage :=
  ⟨(C7_fetch_failure_handling w_timeout freshSession "1" "0.5" (by decide)).1,
   (C7_fetch_failure_handling w_timeout freshSession "1" "0.5" (by decide)).2
     ⟨"1", "Greška", [], some "Connection timed out"⟩ (by decide)⟩

/-- C8 (counterexample).  In the environment `w_session`, running a call
on the cookie jar left behind by an earlier call of the same resolver
gives a different report than the same call on a freshly constructed
resolver: calls are not isolated. -/
theorem C8_counterexample :
    (check_availability w_session
        ((check_availability w_session freshSession "1" "0.5").2) "1" "0.5").1 ≠
      (check_availability w_session freshSession "1" "0.5").1 := by
  decide

/-- C8 (corrected): the resolver shares one session across calls — the
cookie jar a call leaves behind is the jar the next call sends — and
there is an environment in which cookies left by an earlier call change
a later call's report, so per-call isolation does not hold. -/
theorem C8_shared_session_not_isolated :
    ∃ (w : World) (book_id rand : String),
      (check_availability w
          ((check_availability w freshSession book_id rand).2) book_id rand).1 ≠
        (check_availability w freshSession book_id rand).1 :=
  ⟨w_session, "1", "0.5", by decide⟩

/-- C9 (confirmed): if the record-page GET succeeds but the AJAX POST
fails (transport error or non-success status), the failure is swallowed:
the report has empty locations and no error field, indistinguishable
from a record with no parseable copies. -/
theorem C9_ajax_failure_swallowed (w : World) (jar : Cookies) (book_id rand : String)
    (resp : Response) (jar₁ : Cookies)
    (hget : w.get (record_url book_id) session_headers jar = .ok (resp, jar₁))
    (hok : httpFails resp.status = false)
    (hpost : ajax_post_fails_b w jar₁ book_id rand = true) :
    (check_availability w jar book_id rand).1.locations = [] ∧
      (check_availability w jar book_id rand).1.error = none := by
  unfold check_availability
  rw [hget]
  simp only [hok]
  unfold get_locations_ajax_post
  unfold ajax_post_fails_b at hpost
  cases hp : w.post ajax_url (ajax_headers book_id) (ajax_data book_id rand) jar₁ with
  | error e => simp
  | ok p =>
    obtain ⟨resp₂, jar₂⟩ := p
    rw [hp] at hpost
    simp only at hpost
    simp [hpost]

/-- C9 (witness): a failing AJAX POST after a successful page fetch
yields an error-free report with empty locations. -/
theorem C9_ajax_failure_swallowed_witness :
    (check_availability w_postFail freshSession "1" "0.5").1.locations = [] ∧
      (check_availability w_postFail freshSession "1" "0.5").1.error = none :=
  C9_ajax_failure_swallowed w_postFail freshSession "1" "0.5" ⟨200, pagePrimary⟩
    freshSession rfl (by decide) (by decide)

/-- C10 (confirmed): on a page-fetch failure the report's error field
holds the raw exception text and the title is the literal `Greška`; the
REST endpoint returns that report verbatim to HTTP clients, and only the
chat formatter replaces it with the apology. -/
theorem C10_raw_error_at_api_boundary (w : World) (jar : Cookies)
    (book_id rand e : String)
    (hget : w.get (record_url book_id) session_headers jar = .error e) :
    check_book_availability w jar book_id rand = ⟨book_id, "Greška", [], some e⟩ ∧
      format_availability_message ⟨book_id, "Greška", [], some e⟩ = apologyMessage := by
  constructor
  · unfold check_book_availability check_availability
    rw [hget]
    rfl
  · rfl

/-- C10 (witness): the endpoint hands the raw exception text of a
concrete timeout through to the HTTP client. -/
theorem C10_raw_error_at_api_boundary_witness :
    check_book_availability w_timeout freshSession "1" "0.5" =
      ⟨"1", "Greška", [], some "Connection timed out"⟩ ∧
    format_availability_message ⟨"1", "Greška", [], some "Connection timed out"⟩ =
      apologyMessage :=
  C10_raw_error_at_api_boundary w_timeout freshSession "1" "0.5" "Connection timed out" rfl

end LibChatbot
